import Mathlib

/-!
Verification of the local HTTP control-plane listener and the URI callback
handler of the extension entrypoint (`src/extension.ts`).

The handler installed by `http.createServer` is modelled as a pure function
`handleRequest` from an environment (configured token, visible session,
outcome of the collaborator calls) and a request to a response paired with
the list of observable collaborator effects.  The URI handler `handleUri`
is modelled likewise.  `JSON.parse` is external; its result on the request
body is carried in the request as `body : Option JsonValue`, where `none`
means the parse threw (caught by the outer catch → 500).
-/

namespace ClineControl

/-- A JSON value, the possible results of a successful `JSON.parse`. -/
inductive JsonValue where
  | jnull
  | jbool (b : Bool)
  | jnum (n : Int)
  | jstr (s : String)
  | jarr (elems : List JsonValue)
  | jobj (fields : List (String × JsonValue))

/-- Field access on a parse result: `(JSON.parse(body)).message`.
Destructuring a non-object primitive yields `undefined` (here `none`). -/
def getField (j : JsonValue) (key : String) : Option JsonValue :=
  match j with
  | .jobj fields => fields.lookup key
  | _ => none

/-- JavaScript truthiness of `message` after `const { message } = ...`
(`none` is `undefined`): the `if (!message)` test in the source. -/
def truthy : Option JsonValue → Bool
  | none => false
  | some .jnull => false
  | some (.jbool b) => b
  | some (.jnum n) => n != 0
  | some (.jstr s) => s != ""
  | some (.jarr _) => true
  | some (.jobj _) => true

/-- The `APIResponse` envelope of `extension.ts`: `{success, data?, error?}`
with `error` a `{code, message}` pair. -/
structure APIResponse where
  success : Bool
  data : Option JsonValue
  error : Option (String × String)

/-- One emitted HTTP response: status, accumulated headers, optional
structured JSON body (the 204 preflight reply has no body). -/
structure HttpResponse where
  status : Nat
  headers : List (String × String)
  body : Option APIResponse

/-- Observable calls into the collaborator made by a route handler. -/
inductive Effect where
  | executeCommand (cmd : String) (arg : JsonValue)
  | updateGlobalState (key : String) (value : List (String × String))
  | postStateToWebview
  | postInvoke (invoke : String)

/-- The visible `ClineProvider` instance, as seen by the control plane:
its persisted `chatSettings` map and the state snapshot returned by
`getStateToPostToWebview`. -/
structure Session where
  chatSettings : List (String × String)
  stateSnapshot : JsonValue

/-- Server environment: the configured shared-secret `token`, the result of
`ClineProvider.getVisibleInstance()`, and whether each awaited collaborator
call resolves.  `sendMessageOk` and `buttonPostOk` are the two calls the
source wraps in `try/catch` (500 with a route-specific code on rejection);
`getStateOk`, `updateGlobalStateOk` and `postStateOk` are the un-wrapped
awaited calls of the mode route (lines 195-197) and `getStateToPostOk` the
un-wrapped call of the GET route (line 174), whose rejections propagate to
the outer catch and reply 500 INTERNAL_SERVER_ERROR. -/
structure ServerEnv where
  token : String
  visible : Option Session
  sendMessageOk : Bool
  buttonPostOk : Bool
  getStateOk : Bool
  updateGlobalStateOk : Bool
  postStateOk : Bool
  getStateToPostOk : Bool

/-- One inbound control-plane request: method, url, the `content-type` and
`x-cli-token` headers, and the `JSON.parse` outcome on the body. -/
structure Request where
  method : String
  url : String
  contentType : Option String
  cliToken : Option String
  body : Option JsonValue

/-- `API_VERSION` constant of the source. -/
def API_VERSION : String := "1.0"

/-- The headers set by `res.setHeader` at the top of the request handler,
before any routing decision. -/
def corsHeaders : List (String × String) :=
  [("Access-Control-Allow-Origin", "*"),
   ("Access-Control-Allow-Methods", "GET, POST, OPTIONS"),
   ("Access-Control-Allow-Headers", "Content-Type, x-cli-token"),
   ("Access-Control-Expose-Headers", "x-api-version"),
   ("x-api-version", API_VERSION)]

/-- The headers added by `sendResponse` via `res.writeHead`. -/
def jsonHeaders : List (String × String) :=
  [("Content-Type", "application/json"), ("x-api-version", API_VERSION)]

/-- `sendResponse(res, status, response)` of the source: the response goes
out with the CORS headers already set plus the `writeHead` headers. -/
def sendResponse (status : Nat) (r : APIResponse) : HttpResponse :=
  { status := status, headers := corsHeaders ++ jsonHeaders, body := some r }

/-- An error reply `{success: false, error: {code, message}}`. -/
def errorResponse (status : Nat) (code msg : String) : HttpResponse :=
  sendResponse status { success := false, data := none, error := some (code, msg) }

/-- A success reply `{success: true, data}`. -/
def okResponse (d : JsonValue) : HttpResponse :=
  sendResponse 200 { success := true, data := some d, error := none }

/-- The `OPTIONS` preflight reply: `res.writeHead(204); res.end()` — only
the already-set CORS headers, no body. -/
def preflightResponse : HttpResponse :=
  { status := 204, headers := corsHeaders, body := none }

/-- Substring containment on character lists, modelling
`String.prototype.includes`. -/
def containsSub (needle : List Char) : List Char → Bool
  | [] => needle.isEmpty
  | c :: rest => needle.isPrefixOf (c :: rest) || containsSub needle rest

/-- The content-type precondition of line 80:
`req.headers["content-type"]?.includes("application/json")` — a missing
header short-circuits to `undefined`, hence rejection. -/
def contentTypeOk (ct : Option String) : Bool :=
  match ct with
  | none => false
  | some s => containsSub "application/json".data s.data

/-- `req.url === "/v1/mode/plan" ? "plan" : "act"` (line 194). -/
def modeFor (url : String) : String :=
  if url = "/v1/mode/plan" then "plan" else "act"

/-- JavaScript object spread `{ ...chatSettings, mode }` on an association
list: all other keys kept, `"mode"` bound to the new value. -/
def objectSpreadSet (m : List (String × String)) (k v : String) :
    List (String × String) :=
  m.filter (fun p => p.1 != k) ++ [(k, v)]

/-- `JSON.parse` threw, or returned `null` so that the destructuring
`const { message } = ...` throws a `TypeError`; either way the exception
reaches the outer catch. -/
def bodyDestructureThrows : Option JsonValue → Bool
  | none => true
  | some .jnull => true
  | some _ => false

/-- The request handler passed to `http.createServer`, lines 60–261 of
`extension.ts`, as a pure function producing the response and the list of
collaborator effects.  A rejection of an awaited collaborator call that the
source does not wrap in `try/catch` (mode route lines 195-197, GET route
line 174), like a throwing `JSON.parse`, reaches the outer catch (line 251)
and replies 500 INTERNAL_SERVER_ERROR; a mutating call is recorded in the
effect list as soon as it is issued, whether or not it resolves. -/
def handleRequest (env : ServerEnv) (req : Request) : HttpResponse × List Effect :=
  if req.method = "OPTIONS" then
    (preflightResponse, [])
  else if req.method = "POST" ∧ contentTypeOk req.contentType = false then
    (errorResponse 415 "INVALID_CONTENT_TYPE"
      "Content-Type must be application/json", [])
  else if ¬ req.cliToken = some env.token then
    (errorResponse 401 "UNAUTHORIZED"
      "Invalid or missing authentication token", [])
  else if req.method = "POST" ∧ req.url = "/v1/messages" then
    match req.body with
    | none =>
      (errorResponse 500 "INTERNAL_SERVER_ERROR" "An unexpected error occurred", [])
    | some .jnull =>
      (errorResponse 500 "INTERNAL_SERVER_ERROR" "An unexpected error occurred", [])
    | some j =>
      if truthy (getField j "message") = false then
        (errorResponse 400 "INVALID_REQUEST" "Message field is required", [])
      else
        match env.visible with
        | none =>
          (errorResponse 503 "SERVICE_UNAVAILABLE"
            "No active Cline instance available", [])
        | some _ =>
          let msgArg := (getField j "message").getD .jnull
          if env.sendMessageOk then
            (okResponse (.jobj [("message", .jstr "Message sent successfully")]),
             [.executeCommand "cline.sendMessageExternal" msgArg])
          else
            (errorResponse 500 "COMMAND_EXECUTION_ERROR" "Failed to execute command",
             [.executeCommand "cline.sendMessageExternal" msgArg])
  else if req.method = "GET" ∧ req.url = "/v1/messages" then
    match env.visible with
    | none =>
      (errorResponse 503 "SERVICE_UNAVAILABLE"
        "No active Cline instance available", [])
    | some s =>
      if env.getStateToPostOk = false then
        (errorResponse 500 "INTERNAL_SERVER_ERROR" "An unexpected error occurred", [])
      else (okResponse s.stateSnapshot, [])
  else if req.method = "POST" ∧
      (req.url = "/v1/mode/plan" ∨ req.url = "/v1/mode/act") then
    match env.visible with
    | none =>
      (errorResponse 503 "SERVICE_UNAVAILABLE"
        "No active Cline instance available", [])
    | some s =>
      if env.getStateOk = false then
        (errorResponse 500 "INTERNAL_SERVER_ERROR" "An unexpected error occurred", [])
      else if env.updateGlobalStateOk = false then
        (errorResponse 500 "INTERNAL_SERVER_ERROR" "An unexpected error occurred",
         [.updateGlobalState "chatSettings"
            (objectSpreadSet s.chatSettings "mode" (modeFor req.url))])
      else if env.postStateOk = false then
        (errorResponse 500 "INTERNAL_SERVER_ERROR" "An unexpected error occurred",
         [.updateGlobalState "chatSettings"
            (objectSpreadSet s.chatSettings "mode" (modeFor req.url)),
          .postStateToWebview])
      else
        (okResponse (.jobj [("mode", .jstr (modeFor req.url))]),
         [.updateGlobalState "chatSettings"
            (objectSpreadSet s.chatSettings "mode" (modeFor req.url)),
          .postStateToWebview])
  else if req.method = "POST" ∧
      (req.url = "/v1/buttons/primary" ∨ req.url = "/v1/buttons/secondary") then
    match env.visible with
    | none =>
      (errorResponse 503 "SERVICE_UNAVAILABLE"
        "No active Cline instance available", [])
    | some _ =>
      let isPrimary := req.url = "/v1/buttons/primary"
      let invoke := if isPrimary then "primaryButtonClick" else "secondaryButtonClick"
      if env.buttonPostOk then
        (okResponse (.jobj [("message",
          .jstr (if isPrimary then "Primary button clicked successfully"
                 else "Secondary button clicked successfully"))]),
         [.postInvoke invoke])
      else
        (errorResponse 500 "BUTTON_CLICK_ERROR" "Failed to click button",
         [.postInvoke invoke])
  else
    (errorResponse 404 "NOT_FOUND" "Requested endpoint not found", [])

/-- The routing table: the (method, url) pairs with a dedicated handler. -/
def isKnownRoute (m u : String) : Bool :=
  (m = "POST" && u = "/v1/messages") ||
  (m = "GET" && u = "/v1/messages") ||
  (m = "POST" && (u = "/v1/mode/plan" || u = "/v1/mode/act")) ||
  (m = "POST" && (u = "/v1/buttons/primary" || u = "/v1/buttons/secondary"))

/-- Replaying an effect against the persisted state of the session:
`updateGlobalState("chatSettings", v)` stores `v`. -/
def applyEffect (s : Session) (e : Effect) : Session :=
  match e with
  | .updateGlobalState k v =>
      if k = "chatSettings" then { s with chatSettings := v } else s
  | _ => s

/-- Replaying the effect list of a handler run against a session. -/
def applySessionEffects (s : Session) (effs : List Effect) : Session :=
  effs.foldl applyEffect s

/-! ### Query-string parsing (the `URLSearchParams` model for `handleUri`) -/

/-- Value of a hexadecimal digit, as in percent-escape decoding. -/
def hexVal (c : Char) : Option Nat :=
  if '0' ≤ c ∧ c ≤ '9' then some (c.toNat - '0'.toNat)
  else if 'a' ≤ c ∧ c ≤ 'f' then some (c.toNat - 'a'.toNat + 10)
  else if 'A' ≤ c ∧ c ≤ 'F' then some (c.toNat - 'A'.toNat + 10)
  else none

/-- `application/x-www-form-urlencoded` decoding of one component, as
`URLSearchParams` performs it: `+` becomes a space, `%hh` becomes the
character with that code, a malformed escape is left as-is. -/
def percentDecode : List Char → List Char
  | [] => []
  | c :: rest =>
    if c = '+' then ' ' :: percentDecode rest
    else if c = '%' then
      match rest with
      | h1 :: h2 :: rest2 =>
        (match hexVal h1, hexVal h2 with
         | some a, some b => Char.ofNat (16 * a + b) :: percentDecode rest2
         | _, _ => '%' :: percentDecode (h1 :: h2 :: rest2))
      | short => '%' :: percentDecode short
    else c :: percentDecode rest

/-- Split a query string at `&` separators. -/
def splitOnAmp : List Char → List (List Char)
  | [] => [[]]
  | c :: rest =>
    if c = '&' then [] :: splitOnAmp rest
    else
      match splitOnAmp rest with
      | [] => [[c]]
      | p :: ps => (c :: p) :: ps

/-- Split one `key=value` segment at the first `=`; a segment without `=`
has the empty value. -/
def splitKV : List Char → List Char × List Char
  | [] => ([], [])
  | c :: rest =>
    if c = '=' then ([], rest)
    else
      let p := splitKV rest
      (c :: p.1, p.2)

/-- `new URLSearchParams(q)`: split into segments, drop empty segments,
split each at the first `=`, decode key and value. -/
def parseQueryChars (q : List Char) : List (List Char × List Char) :=
  ((splitOnAmp q).filter (fun seg => !seg.isEmpty)).map
    (fun seg => (percentDecode (splitKV seg).1, percentDecode (splitKV seg).2))

/-- `uri.query.replace(/\+/g, "%2B")` (line 417): every `+` is escaped to
`%2B` before the query string reaches `URLSearchParams`. -/
def escapePlus : List Char → List Char
  | [] => []
  | c :: rest =>
    if c = '+' then '%' :: '2' :: 'B' :: escapePlus rest
    else c :: escapePlus rest

/-- The composed query parsing of `handleUri`:
`new URLSearchParams(uri.query.replace(/\+/g, "%2B"))`. -/
def uriParseQuery (q : String) : List (String × String) :=
  (parseQueryChars (escapePlus q.data)).map
    (fun kv => (String.mk kv.1, String.mk kv.2))

/-! ### The URI callback handler -/

/-- Observable actions of the URI handler: the two session entry points and
the user-visible error notification. -/
inductive UriEffect where
  | openRouterCallback (code : String)
  | showErrorMessage (msg : String)
  | authCallback (token : String)

/-- Environment of the URI handler: whether a visible session exists, and
the `validateAuthState` predicate of the session (its argument is `none` when
the `state` query parameter is absent, mirroring `query.get` → `null`). -/
structure UriEnv where
  visible : Bool
  validateAuthState : Option String → Bool

/-- The `handleUri` closure, lines 409–453 of `extension.ts`, as a pure
function from environment, path and raw query string to its effect list. -/
def handleUri (env : UriEnv) (path query : String) : List UriEffect :=
  let q := uriParseQuery query
  if env.visible = false then []
  else if path = "/openrouter" then
    match q.lookup "code" with
    | some code => [.openRouterCallback code]
    | none => []
  else if path = "/auth" then
    let token := q.lookup "token"
    let state := q.lookup "state"
    if env.validateAuthState state = false then
      [.showErrorMessage "Invalid auth state"]
    else
      match token with
      | some t => [.authCallback t]
      | none => []
  else []

/-! ### Claim-level predicates and concrete fixtures -/

/-- The antecedent of the message-field validation: the body parses as JSON
and the parsed value has a truthy `message` field. -/
def bodyHasMessage (b : Option JsonValue) : Bool :=
  match b with
  | none => false
  | some j => truthy (getField j "message")

/-- A response body carries exactly one of `data` and `error`. -/
def exactlyOneDataError (b : APIResponse) : Bool :=
  b.data.isSome != b.error.isSome

/-- The response carries every header set at the top of the handler
(the CORS headers and `x-api-version`). -/
def hasControlHeaders (r : HttpResponse) : Bool :=
  corsHeaders.all (fun h => r.headers.contains h)

/-- The response invariant of the spec: control headers present, and a
structured body (when there is one) has exactly one of `data`/`error`. -/
def responseWellFormed (r : HttpResponse) : Bool :=
  hasControlHeaders r &&
    (match r.body with
     | none => true
     | some b => exactlyOneDataError b)

/-- A concrete session for witnesses. -/
def sampleSession : Session :=
  { chatSettings := [("mode", "act"), ("model", "m1")],
    stateSnapshot := .jstr "snapshot" }

/-- Environment with no visible session, default token, all collaborator
calls resolving. -/
def envNoSession : ServerEnv :=
  { token := "MY_SECRET_123", visible := none,
    sendMessageOk := true, buttonPostOk := true,
    getStateOk := true, updateGlobalStateOk := true,
    postStateOk := true, getStateToPostOk := true }

/-- Environment with a visible session, default token, all collaborator
calls resolving. -/
def envWithSession : ServerEnv :=
  { token := "MY_SECRET_123", visible := some sampleSession,
    sendMessageOk := true, buttonPostOk := true,
    getStateOk := true, updateGlobalStateOk := true,
    postStateOk := true, getStateToPostOk := true }

/-- Environment with a visible session whose awaited `updateGlobalState`
call rejects (reaching the outer catch). -/
def envUpdateRejects : ServerEnv :=
  { token := "MY_SECRET_123", visible := some sampleSession,
    sendMessageOk := true, buttonPostOk := true,
    getStateOk := true, updateGlobalStateOk := false,
    postStateOk := true, getStateToPostOk := true }

/-- POST /v1/messages with valid token and content-type whose body is not
valid JSON (`JSON.parse` throws). -/
def reqUnparsableBody : Request :=
  { method := "POST", url := "/v1/messages",
    contentType := some "application/json",
    cliToken := some "MY_SECRET_123", body := none }

/-- POST /v1/messages with valid token and content-type and body `{}`. -/
def reqEmptyObjectBody : Request :=
  { method := "POST", url := "/v1/messages",
    contentType := some "application/json",
    cliToken := some "MY_SECRET_123", body := some (.jobj []) }

/-- DELETE /v1/messages with a wrong token. -/
def reqDeleteWrongToken : Request :=
  { method := "DELETE", url := "/v1/messages",
    contentType := none, cliToken := some "WRONG", body := none }

/-- DELETE /v1/messages with the correct token. -/
def reqDeleteGoodToken : Request :=
  { method := "DELETE", url := "/v1/messages",
    contentType := none, cliToken := some "MY_SECRET_123", body := none }

/-- POST /v1/mode/plan with the correct token but a non-JSON content-type. -/
def reqModePlanBadCT : Request :=
  { method := "POST", url := "/v1/mode/plan",
    contentType := some "text/plain",
    cliToken := some "MY_SECRET_123", body := none }

/-- POST /v1/mode/plan with the correct token and JSON content-type. -/
def reqModePlanOk : Request :=
  { method := "POST", url := "/v1/mode/plan",
    contentType := some "application/json",
    cliToken := some "MY_SECRET_123", body := none }

/-- POST /v1/messages with a correct token but a non-JSON content-type. -/
def reqMessagesBadCT : Request :=
  { method := "POST", url := "/v1/messages",
    contentType := some "text/plain",
    cliToken := some "MY_SECRET_123", body := some (.jobj []) }

/-- POST /v1/messages with a correct token and a charset-bearing JSON
content-type. -/
def reqMessagesCharsetCT : Request :=
  { method := "POST", url := "/v1/messages",
    contentType := some "application/json; charset=utf-8",
    cliToken := some "MY_SECRET_123", body := some (.jobj []) }

/-- POST /v1/messages with a correct token and no content-type header. -/
def reqMessagesNoCT : Request :=
  { method := "POST", url := "/v1/messages",
    contentType := none,
    cliToken := some "MY_SECRET_123", body := some (.jobj []) }

/-- URI environment with no visible session. -/
def uriEnvNoSession : UriEnv :=
  { visible := false, validateAuthState := fun s => s == some "xyz" }

/-- URI environment: session visible, no state matches. -/
def uriEnvRejecting : UriEnv :=
  { visible := true, validateAuthState := fun _ => false }

/-! ### Helper lemmas -/

theorem lookup_objectSpreadSet (m : List (String × String)) (k v : String) :
    (objectSpreadSet m k v).lookup k = some v := by
  unfold objectSpreadSet
  induction m with
  | nil => simp [List.lookup]
  | cons p t ih =>
    by_cases h : p.1 = k
    · simpa [List.filter_cons, h] using ih
    · have hb : (k == p.1) = false := beq_eq_false_iff_ne.mpr (Ne.symm h)
      simpa [List.filter_cons, h, List.lookup, hb] using ih

theorem hasControlHeaders_full :
    corsHeaders.all (fun h => (corsHeaders ++ jsonHeaders).contains h) = true := by
  decide

theorem responseWellFormed_errorResponse (s : Nat) (c m : String) :
    responseWellFormed (errorResponse s c m) = true := rfl

theorem responseWellFormed_okResponse (d : JsonValue) :
    responseWellFormed (okResponse d) = true := rfl

theorem responseWellFormed_preflight :
    responseWellFormed preflightResponse = true := rfl

theorem percentDecode_cons_ne (c : Char) (rest : List Char)
    (h1 : c ≠ '+') (h2 : c ≠ '%') :
    percentDecode (c :: rest) = c :: percentDecode rest := by
  cases rest with
  | nil => simp [percentDecode, h1, h2]
  | cons d t =>
    cases t with
    | nil => simp [percentDecode, h1, h2]
    | cons e t2 => simp [percentDecode, h1, h2]

theorem percentDecode_escaped_plus (w : List Char) :
    percentDecode ('%' :: '2' :: 'B' :: w) = '+' :: percentDecode w := by
  rw [show percentDecode ('%' :: '2' :: 'B' :: w)
      = Char.ofNat 43 :: percentDecode w from rfl]

theorem escapePlus_append (a b : List Char) :
    escapePlus (a ++ b) = escapePlus a ++ escapePlus b := by
  induction a with
  | nil => rfl
  | cons c t ih =>
    by_cases h : c = '+' <;> simp [escapePlus, h, ih]

theorem mem_escapePlus (c : Char) (v : List Char) (h : c ∈ escapePlus v) :
    c ∈ v ∨ c = '%' ∨ c = '2' ∨ c = 'B' := by
  induction v with
  | nil => simp [escapePlus] at h
  | cons d t ih =>
    by_cases hd : d = '+' <;> simp [escapePlus, hd] at h
    · rcases h with h | h | h | h
      · exact Or.inr (Or.inl h)
      · exact Or.inr (Or.inr (Or.inl h))
      · exact Or.inr (Or.inr (Or.inr h))
      · rcases ih h with h2 | h2
        · exact Or.inl (List.mem_cons_of_mem _ h2)
        · exact Or.inr h2
    · rcases h with h | h
      · exact Or.inl (by simp [h])
      · rcases ih h with h2 | h2
        · exact Or.inl (List.mem_cons_of_mem _ h2)
        · exact Or.inr h2

theorem percentDecode_escapePlus (v : List Char) (h : '%' ∉ v) :
    percentDecode (escapePlus v) = v := by
  induction v with
  | nil => rfl
  | cons c t ih =>
    have hct : '%' ∉ t := fun hm => h (List.mem_cons_of_mem _ hm)
    have hcp : c ≠ '%' := fun hc => h (hc ▸ List.mem_cons_self _ _)
    by_cases hplus : c = '+'
    · subst hplus
      rw [show escapePlus ('+' :: t) = '%' :: '2' :: 'B' :: escapePlus t from rfl,
        percentDecode_escaped_plus, ih hct]
    · have he : escapePlus (c :: t) = c :: escapePlus t := by simp [escapePlus, hplus]
      rw [he, percentDecode_cons_ne c _ hplus hcp, ih hct]

theorem splitOnAmp_no_amp (l : List Char) (h : '&' ∉ l) :
    splitOnAmp l = [l] := by
  induction l with
  | nil => rfl
  | cons c t ih =>
    have hc : c ≠ '&' := fun hc => h (hc ▸ List.mem_cons_self _ _)
    have ht : '&' ∉ t := fun hm => h (List.mem_cons_of_mem _ hm)
    simp [splitOnAmp, hc, ih ht]

/-! ### The claims -/

/-- C1 (corrected): for every POST /v1/messages request that passes the
content-type and auth checks and whose body does not parse as JSON with a
truthy `message` field, the reply is 400 INVALID_REQUEST only when the body
did parse as JSON to a non-null value; when `JSON.parse` throws, or returns
`null` so the destructuring throws, the outer catch replies
500 INTERNAL_SERVER_ERROR instead. -/
theorem messages_invalid_body_response (env : ServerEnv) (req : Request)
    (hm : req.method = "POST") (hu : req.url = "/v1/messages")
    (hct : contentTypeOk req.contentType = true)
    (hauth : req.cliToken = some env.token)
    (hbad : bodyHasMessage req.body = false) :
    (handleRequest env req).1 =
      if bodyDestructureThrows req.body then
        errorResponse 500 "INTERNAL_SERVER_ERROR" "An unexpected error occurred"
      else
        errorResponse 400 "INVALID_REQUEST" "Message field is required" := by
  obtain ⟨m, u, ct, tok, body⟩ := req
  simp only at hm hu hct hauth hbad
  subst hm; subst hu; subst hauth
  cases body with
  | none => simp [handleRequest, hct, bodyDestructureThrows]
  | some j =>
    cases j <;> simp_all [handleRequest, bodyDestructureThrows, bodyHasMessage]

/-- Counterexample to C1 as stated: a body that fails to parse as JSON,
with valid token and content-type, is answered 500, not 400. -/
theorem messages_unparsable_body_gives_500 :
    bodyHasMessage reqUnparsableBody.body = false ∧
    (handleRequest envNoSession reqUnparsableBody).1.status = 500 ∧
    (((handleRequest envNoSession reqUnparsableBody).1.status == 400) = false) :=
  ⟨rfl, rfl, rfl⟩

/-- Witness for C1: `\x7b\x7d` (no `message`) with valid token and
content-type is answered 400 INVALID_REQUEST. -/
theorem messages_invalid_body_response_witness :
    bodyHasMessage reqEmptyObjectBody.body = false ∧
    (handleRequest envWithSession reqEmptyObjectBody).1 =
      errorResponse 400 "INVALID_REQUEST" "Message field is required" := by
  refine ⟨rfl, ?_⟩
  have h := messages_invalid_body_response envWithSession reqEmptyObjectBody
    rfl rfl rfl rfl rfl
  simpa [bodyDestructureThrows] using h

set_option maxHeartbeats 2000000 in
/-- C2 (corrected): a request whose (method, url) is not a defined route is
answered 404 NOT_FOUND provided it is not OPTIONS, passes the content-type
check when it is a POST, and carries the correct token; with a wrong token
the auth check fires first and replies 401 instead. -/
theorem unknown_route_404_after_preconditions (env : ServerEnv) (req : Request)
    (hopt : req.method ≠ "OPTIONS")
    (hct : req.method = "POST" → contentTypeOk req.contentType = true)
    (hauth : req.cliToken = some env.token)
    (hroute : isKnownRoute req.method req.url = false) :
    (handleRequest env req).1 =
      errorResponse 404 "NOT_FOUND" "Requested endpoint not found" := by
  obtain ⟨m, u, ct, tok, body⟩ := req
  simp only at hopt hct hauth hroute
  subst hauth
  simp only [isKnownRoute] at hroute
  unfold handleRequest
  dsimp only
  repeat' split
  all_goals simp_all

/-- Counterexample to C2 as stated: DELETE /v1/messages (an unknown route)
with a wrong token is answered 401, not 404. -/
theorem unknown_route_wrong_token_gives_401 :
    isKnownRoute reqDeleteWrongToken.method reqDeleteWrongToken.url = false ∧
    (handleRequest envNoSession reqDeleteWrongToken).1 =
      errorResponse 401 "UNAUTHORIZED" "Invalid or missing authentication token" ∧
    (((handleRequest envNoSession reqDeleteWrongToken).1.status == 404) = false) :=
  ⟨rfl, rfl, rfl⟩

/-- Witness for C2: DELETE /v1/messages with the correct token is 404. -/
theorem unknown_route_404_witness :
    isKnownRoute reqDeleteGoodToken.method reqDeleteGoodToken.url = false ∧
    (handleRequest envNoSession reqDeleteGoodToken).1 =
      errorResponse 404 "NOT_FOUND" "Requested endpoint not found" :=
  ⟨rfl, unknown_route_404_after_preconditions envNoSession reqDeleteGoodToken
    (by decide) (by decide) rfl rfl⟩

/-- C3 (corrected): for POST /v1/mode/plan and /v1/mode/act, when the
preconditions pass, a session is visible and the three awaited collaborator
calls (getState, updateGlobalState, postStateToWebview) resolve, the reply
is 200 with the new mode, replaying the effects updates the persisted
chatSettings mode, and the state re-broadcast effect is emitted; every
reply has status 200, 415, 401, 503 or 500 — a failure may also be 415
(content-type check) or 500 (a rejected awaited collaborator call reaching
the outer catch), not only 401/503. -/
theorem mode_route_success_and_failure_statuses (env : ServerEnv) (req : Request)
    (hm : req.method = "POST")
    (hu : req.url = "/v1/mode/plan" ∨ req.url = "/v1/mode/act") :
    (∀ s, env.visible = some s → contentTypeOk req.contentType = true →
        req.cliToken = some env.token →
        env.getStateOk = true → env.updateGlobalStateOk = true →
        env.postStateOk = true →
        (handleRequest env req).1 =
          okResponse (.jobj [("mode", .jstr (modeFor req.url))]) ∧
        (applySessionEffects s (handleRequest env req).2).chatSettings.lookup "mode"
          = some (modeFor req.url) ∧
        Effect.postStateToWebview ∈ (handleRequest env req).2) ∧
    ((handleRequest env req).1.status = 200 ∨ (handleRequest env req).1.status = 415 ∨
     (handleRequest env req).1.status = 401 ∨ (handleRequest env req).1.status = 503 ∨
     (handleRequest env req).1.status = 500) := by
  obtain ⟨m, u, ct, tok, body⟩ := req
  simp only at hm hu ⊢
  subst hm
  constructor
  · rintro s hvis hct hauth hg hup hp
    subst hauth
    rcases hu with hu | hu <;> subst hu <;>
      simp [handleRequest, hct, hvis, hg, hup, hp, modeFor, applySessionEffects,
        applyEffect, lookup_objectSpreadSet]
  · by_cases hct : contentTypeOk ct = false
    · rcases hu with hu | hu <;> subst hu <;>
        simp [handleRequest, hct, errorResponse, sendResponse]
    · by_cases hauth : tok = some env.token
      · subst hauth
        rcases hu with hu | hu <;> subst hu <;>
          cases hvis : env.visible <;>
            by_cases hg : env.getStateOk = false <;>
              by_cases hup : env.updateGlobalStateOk = false <;>
                by_cases hp : env.postStateOk = false <;>
                  simp [handleRequest, hct, hvis, hg, hup, hp, errorResponse,
                    sendResponse, okResponse]
      · rcases hu with hu | hu <;> subst hu <;>
          simp [handleRequest, hct, hauth, errorResponse, sendResponse]

/-- Counterexample to C3 as stated: POST /v1/mode/plan with the correct
token but content-type text/plain fails with 415, which is neither 401 nor
503. -/
theorem mode_plan_bad_content_type_gives_415 :
    reqModePlanBadCT.cliToken = some envWithSession.token ∧
    (handleRequest envWithSession reqModePlanBadCT).1 =
      errorResponse 415 "INVALID_CONTENT_TYPE" "Content-Type must be application/json" ∧
    (((handleRequest envWithSession reqModePlanBadCT).1.status == 401) = false) ∧
    (((handleRequest envWithSession reqModePlanBadCT).1.status == 503) = false) :=
  ⟨rfl, rfl, rfl, rfl⟩

/-- Witness for C3: a successful POST /v1/mode/plan replies 200 with mode
plan, persists mode plan, and re-broadcasts state; with a rejecting
updateGlobalState the same request is answered 500 by the outer catch. -/
theorem mode_route_witness :
    ((handleRequest envUpdateRejects reqModePlanOk).1.status = 500) ∧
    (handleRequest envWithSession reqModePlanOk).1 =
      okResponse (.jobj [("mode", .jstr "plan")]) ∧
    (applySessionEffects sampleSession
        (handleRequest envWithSession reqModePlanOk).2).chatSettings.lookup "mode"
      = some "plan" ∧
    Effect.postStateToWebview ∈ (handleRequest envWithSession reqModePlanOk).2 := by
  refine ⟨rfl, ?_⟩
  have h := (mode_route_success_and_failure_statuses envWithSession reqModePlanOk
    rfl (Or.inl rfl)).1 sampleSession rfl rfl rfl rfl rfl rfl
  simpa [modeFor] using h

/-- C4 (confirmed): every POST request whose content-type header does not
contain "application/json" is answered 415 INVALID_CONTENT_TYPE, whatever
the token header holds (in particular when it is correct): the content-type
check is evaluated before the auth check. -/
theorem post_bad_content_type_is_415 (env : ServerEnv) (req : Request)
    (hm : req.method = "POST")
    (hct : contentTypeOk req.contentType = false) :
    (handleRequest env req).1 =
      errorResponse 415 "INVALID_CONTENT_TYPE"
        "Content-Type must be application/json" := by
  obtain ⟨m, u, ct, tok, body⟩ := req
  simp only at hm hct
  subst hm
  simp [handleRequest, hct]

/-- Witness for C4: POST /v1/messages with the correct token but
content-type text/plain is answered 415. -/
theorem post_bad_content_type_witness :
    reqMessagesBadCT.cliToken = some envWithSession.token ∧
    (handleRequest envWithSession reqMessagesBadCT).1 =
      errorResponse 415 "INVALID_CONTENT_TYPE"
        "Content-Type must be application/json" :=
  ⟨rfl, post_bad_content_type_is_415 envWithSession reqMessagesBadCT rfl (by decide)⟩

/-- C6 (confirmed): because the query string is escaped (`+` to `%2B`)
before `URLSearchParams` decoding, a query value keeps a literal `+`
(for any value free of `%` and `&`, the parsed value is the value itself,
`+` included, not turned into a space). -/
theorem query_plus_preserved (v : List Char)
    (hpct : '%' ∉ v) (hamp : '&' ∉ v) :
    (uriParseQuery (String.mk ('t' :: 'o' :: 'k' :: 'e' :: 'n' :: '=' :: v))).lookup "token"
      = some (String.mk v) := by
  have hesc : escapePlus ('t' :: 'o' :: 'k' :: 'e' :: 'n' :: '=' :: v)
      = 't' :: 'o' :: 'k' :: 'e' :: 'n' :: '=' :: escapePlus v := by
    rw [show ('t' :: 'o' :: 'k' :: 'e' :: 'n' :: '=' :: v)
        = ['t','o','k','e','n','='] ++ v from rfl, escapePlus_append]
    rfl
  have hampE : '&' ∉ escapePlus v := by
    intro hm
    rcases mem_escapePlus _ _ hm with h | h | h | h
    · exact hamp h
    · exact absurd h (by decide)
    · exact absurd h (by decide)
    · exact absurd h (by decide)
  have hamp2 : '&' ∉ ('t' :: 'o' :: 'k' :: 'e' :: 'n' :: '=' :: escapePlus v) := by
    intro hmem
    rcases List.mem_cons.mp hmem with h | hmem
    · exact absurd h (by decide)
    rcases List.mem_cons.mp hmem with h | hmem
    · exact absurd h (by decide)
    rcases List.mem_cons.mp hmem with h | hmem
    · exact absurd h (by decide)
    rcases List.mem_cons.mp hmem with h | hmem
    · exact absurd h (by decide)
    rcases List.mem_cons.mp hmem with h | hmem
    · exact absurd h (by decide)
    rcases List.mem_cons.mp hmem with h | hmem
    · exact absurd h (by decide)
    exact hampE hmem
  unfold uriParseQuery parseQueryChars
  rw [show (String.mk ('t' :: 'o' :: 'k' :: 'e' :: 'n' :: '=' :: v)).data
      = 't' :: 'o' :: 'k' :: 'e' :: 'n' :: '=' :: v from rfl]
  rw [hesc, splitOnAmp_no_amp _ hamp2]
  rw [show List.filter (fun seg => !seg.isEmpty)
        [('t' :: 'o' :: 'k' :: 'e' :: 'n' :: '=' :: escapePlus v)]
      = [('t' :: 'o' :: 'k' :: 'e' :: 'n' :: '=' :: escapePlus v)] from rfl]
  simp only [List.map_cons, List.map_nil]
  rw [show splitKV ('t' :: 'o' :: 'k' :: 'e' :: 'n' :: '=' :: escapePlus v)
      = (['t','o','k','e','n'], escapePlus v) from rfl]
  rw [show percentDecode ['t','o','k','e','n'] = ['t','o','k','e','n'] from rfl]
  rw [percentDecode_escapePlus v hpct]
  rw [show String.mk ['t','o','k','e','n'] = "token" from rfl]
  simp [List.lookup]

/-- Witness for C6: the query token=a+b parses to the value a+b, with the
plus preserved. -/
theorem query_plus_preserved_witness :
    (uriParseQuery "token=a+b").lookup "token" = some "a+b" := by
  have h := query_plus_preserved ['a', '+', 'b'] (by decide) (by decide)
  simpa using h

/-- C7 (confirmed): when no session is visible the entire URI callback is a
no-op: no session entry point is invoked and no error is surfaced, whatever
the path and query are. -/
theorem no_visible_session_noop (env : UriEnv) (path query : String)
    (h : env.visible = false) :
    handleUri env path query = [] := by
  simp [handleUri, h]

/-- Witness for C7: a well-formed /auth callback with no visible session
produces no effect at all. -/
theorem no_visible_session_noop_witness :
    handleUri uriEnvNoSession "/auth" "token=abc&state=xyz" = [] :=
  no_visible_session_noop uriEnvNoSession "/auth" "token=abc&state=xyz" rfl

set_option maxHeartbeats 2000000 in
/-- C8 (confirmed): every response emitted by the listener carries the CORS
headers and the x-api-version header, and every structured response body
carries exactly one of data and error. -/
theorem every_response_well_formed (env : ServerEnv) (req : Request) :
    responseWellFormed (handleRequest env req).1 = true := by
  obtain ⟨m, u, ct, tok, body⟩ := req
  unfold handleRequest
  dsimp only
  repeat' split
  all_goals rfl

set_option maxHeartbeats 2000000 in
/-- C10 (confirmed): for POST requests the reply is 415 exactly when the
content-type precondition fails; the precondition rejects a missing header
and, on a present header, is substring containment of application/json
(so a charset-bearing value is accepted). -/
theorem content_type_check_is_substring (env : ServerEnv) (req : Request)
    (hm : req.method = "POST") :
    ((handleRequest env req).1.status = 415 ↔ contentTypeOk req.contentType = false) ∧
    contentTypeOk none = false ∧
    (∀ ct : String, contentTypeOk (some ct) =
      containsSub "application/json".data ct.data) := by
  refine ⟨?_, rfl, fun ct => rfl⟩
  obtain ⟨m, u, ct, tok, body⟩ := req
  simp only at hm
  subst hm
  by_cases hct : contentTypeOk ct = false
  · simp [handleRequest, hct, errorResponse, sendResponse]
  · unfold handleRequest
    dsimp only
    repeat' split
    all_goals simp_all [errorResponse, sendResponse, okResponse, preflightResponse]

/-- Witness for C10: a missing content-type header on POST /v1/messages
with a correct token is answered 415, while the value
application/json; charset=utf-8 passes the precondition and is not 415. -/
theorem content_type_check_witness :
    ((handleRequest envWithSession reqMessagesNoCT).1.status = 415) ∧
    contentTypeOk reqMessagesCharsetCT.contentType = true ∧
    (((handleRequest envWithSession reqMessagesCharsetCT).1.status == 415) = false) :=
  ⟨(content_type_check_is_substring envWithSession reqMessagesNoCT rfl).1.mpr rfl,
   by decide, by decide⟩

end ClineControl
